import Mathlib

/-!
Verification development for the RFQ summary service.

The definitions below are a shallow embedding of the Python sources in
`src/rfq_summary`:

* `schema.py`       — URL cleaning, attachment-URL collection and dedup;
* `attachments.py`  — the HTTP fetcher and the per-attachment analysis loop;
* `parsers/excel.py`— table-region detection and the bounded Excel text blob;
* `parsers/pdf.py`  — scanned-PDF classification and the bounded PDF text blob;
* `parsers/image.py`— the vision-based image extractor;
* `task.py`         — the two-marker output parser;
* `api.py`          — job execution status recording and queue admission.

Machine integers are modelled as `Int`/`Nat` (Python integers are unbounded),
Python strings as Lean `String` (both count unicode code points for `len`),
and fallible external calls (HTTP, Document AI, the vision model) as explicit
oracle arguments of `Except`/`Option` type.  Loops are modelled by structural
recursion, using an explicit fuel argument initialised to the length of the
traversed list where the Python loop is a `while`.
-/

namespace RFQ

/-! ## Python string primitives -/

/-- Whitespace set of Python `str.strip` (ASCII range). -/
def pyIsSpace (c : Char) : Bool :=
  c = ' ' || c = '\t' || c = '\n' || c = '\r' || c = '\x0b' || c = '\x0c'

/-- Python `str.strip()` on a char list. -/
def pyStripChars (l : List Char) : List Char :=
  ((l.dropWhile pyIsSpace).reverse.dropWhile pyIsSpace).reverse

/-- Python `str.strip()`. -/
def pyStrip (s : String) : String :=
  String.mk (pyStripChars s.toList)

/-- Python `str.rstrip()`. -/
def pyRStrip (s : String) : String :=
  String.mk ((s.toList.reverse.dropWhile pyIsSpace).reverse)

/-- Python `str.lower` on one ASCII char. -/
def pyLowerChar (c : Char) : Char :=
  if 'A' ≤ c && c ≤ 'Z' then Char.ofNat (c.toNat + 32) else c

/-- Python `str.lower()` (ASCII). -/
def pyLower (s : String) : String :=
  String.mk (s.toList.map pyLowerChar)

/-- Does `needle` occur as a prefix of `hay`? -/
def matchesAt : List Char → List Char → Bool
  | [], _ => true
  | _ :: _, [] => false
  | a :: na, b :: hb => a = b && matchesAt na hb

/-- First index at which `needle` occurs in the remaining haystack. -/
def findAux (needle : List Char) : List Char → Nat → Option Nat
  | [], i => if matchesAt needle [] then some i else none
  | h :: t, i => if matchesAt needle (h :: t) then some i else findAux needle t (i + 1)

/-- Python `hay.find(sub)`: first occurrence index, `-1` if absent. -/
def pyFind (hay sub : String) : Int :=
  match findAux sub.toList hay.toList 0 with
  | some i => (i : Int)
  | none => -1

/-- Python `sub in hay`. -/
def pyContains (hay sub : String) : Bool :=
  pyFind hay sub ≥ 0

/-- Python `s.startswith(c)` for a one-char prefix. -/
def startsWithChar (s : String) (c : Char) : Bool :=
  match s.toList with
  | [] => false
  | h :: _ => h = c

/-- Python `s.endswith(c)` for a one-char suffix. -/
def endsWithChar (s : String) (c : Char) : Bool :=
  match s.toList.reverse with
  | [] => false
  | h :: _ => h = c

/-- Python slice `s[1:-1]`. -/
def pyDropEnds (s : String) : String :=
  String.mk (s.toList.drop 1).dropLast

/-- Python slice `s[:n]` for a nonnegative bound. -/
def pyTake (s : String) (n : Nat) : String :=
  String.mk (s.toList.take n)

/-- Python slice `s[a:]` (nonnegative index). -/
def pySliceFrom (s : String) (a : Int) : String :=
  String.mk (s.toList.drop a.toNat)

/-- Python slice `s[a:b]` for `0 ≤ a ≤ b`. -/
def pySlice (s : String) (a b : Int) : String :=
  String.mk ((s.toList.take b.toNat).drop a.toNat)

/-- Python `sep.join(xs)`. -/
def pyJoin (sep : String) : List String → String
  | [] => ""
  | [x] => x
  | x :: xs => x ++ sep ++ pyJoin sep xs

/-- Left-to-right non-overlapping replacement on char lists; the fuel starts
at the list length, enough since every step consumes at least one char. -/
def pyReplaceGo (old new : List Char) : Nat → List Char → List Char
  | 0, l => l
  | _, [] => []
  | fuel + 1, h :: t =>
    if old ≠ [] && matchesAt old (h :: t) then
      new ++ pyReplaceGo old new fuel ((h :: t).drop old.length)
    else
      h :: pyReplaceGo old new fuel t

/-- Python `s.replace(old, new)` for a non-empty pattern. -/
def pyReplace (s old new : String) : String :=
  String.mk (pyReplaceGo old.toList new.toList s.toList.length s.toList)

/-! ## URL cleaning (`schema.py` and `attachments.py`)

Both modules define a `_clean_url`; they differ in the order of the
trailing-junk loop relative to the newline removal, and are modelled
separately. -/

/-- Trailing punctuation stripped from pasted URLs. -/
def isJunkChar (c : Char) : Bool :=
  c = ')' || c = ']' || c = '\x7d' || c = ','

/-- One `while s and s[-1] in (")", "]", "}", ","): s = s[:-1].rstrip()` loop,
on the reversed char list; the fuel starts at the list length, enough for the
loop since every iteration consumes at least the head char. -/
def stripJunkRevGo : Nat → List Char → List Char
  | 0, l => l
  | _, [] => []
  | fuel + 1, c :: rest =>
    if isJunkChar c then stripJunkRevGo fuel (rest.dropWhile pyIsSpace) else c :: rest

/-- The trailing-junk loop shared by both `_clean_url` variants. -/
def stripTrailingJunk (s : String) : String :=
  String.mk (stripJunkRevGo s.toList.length s.toList.reverse).reverse

/-- Surrounding-quote strip `s[1:-1].strip()` applied when the string both
starts and ends with the same quote char (a single quote char satisfies both
tests in Python, yielding the empty string). -/
def stripSurroundingQuotes (s : String) : String :=
  if (startsWithChar s '\"' && endsWithChar s '\"')
      || (startsWithChar s '\'' && endsWithChar s '\'') then
    pyStrip (pyDropEnds s)
  else s

/-- The `_clean_url` of `schema.py`: strip, quote strip, trailing-junk loop,
newline removal + strip, then literal-space encoding. -/
def schemaCleanUrl (u : String) : String :=
  let s := pyStrip u
  if s = "" then ""
  else
    let s := stripSurroundingQuotes s
    let s := stripTrailingJunk s
    let s := pyStrip (pyReplace (pyReplace s ("\n") ("")) ("\r") (""))
    if pyContains s (" ") then pyReplace s (" ") ("%20") else s

/-- The `_clean_url` of `attachments.py`: strip, quote strip, newline removal
+ strip, trailing-junk loop, then literal-space encoding (the junk loop runs
after the newline removal here, unlike in `schema.py`). -/
def attCleanUrl (u : String) : String :=
  let s := pyStrip u
  if s = "" then ""
  else
    let s := stripSurroundingQuotes s
    let s := pyStrip (pyReplace (pyReplace s ("\n") ("")) ("\r") (""))
    let s := stripTrailingJunk s
    if pyContains s (" ") then pyReplace s (" ") ("%20") else s

/-! ## Attachment URL collection (`schema.py`) -/

/-- Order-preserving dedup of cleaned, non-empty URLs (the `seen` set plus
`out` list idiom used by both `all_attachment_urls` implementations). -/
def dedupeClean (clean : String → String) : List String → List String → List String
  | _, [] => []
  | seen, u :: rest =>
    let u2 := clean u
    if u2 ≠ "" && !(seen.contains u2) then
      u2 :: dedupeClean clean (u2 :: seen) rest
    else
      dedupeClean clean seen rest

/-- The attachment-bearing fields of `ProductItem` (`sr_no`, `name`, `qty`
and `details` play no role in URL collection and are omitted). -/
structure ProductItem where
  dwg : Option String := none
  photo : List String := []
  files : List String := []

/-- `ProductItem.all_attachment_urls`: dwg (when truthy), then photos, then
files, cleaned and deduped preserving order. -/
def ProductItem.allAttachmentUrls (p : ProductItem) : List String :=
  let urls :=
    (match p.dwg with
     | some d => if d ≠ "" then [d] else []
     | none => []) ++ p.photo ++ p.files
  dedupeClean schemaCleanUrl [] urls

/-- The part of `InputPayload` that feeds URL collection: the parsed product
list (the raw `Product_json` parsing and the scalar RFQ fields are
orthogonal to the claims and omitted). -/
structure InputPayload where
  products : List ProductItem := []

/-- `InputPayload.all_attachment_urls`: concatenation of the per-product URL
lists, cleaned again and deduped preserving order. -/
def InputPayload.allAttachmentUrls (pl : InputPayload) : List String :=
  dedupeClean schemaCleanUrl [] (pl.products.map ProductItem.allAttachmentUrls).flatten

/-! ## Attachment analysis loop (`attachments.py`) -/

/-- The externally visible part of an `AttachmentFinding` (`data` carries
per-kind payloads that the claims do not constrain and is omitted). -/
structure AttachmentFinding where
  url : String
  kind : String
  summary : String
deriving DecidableEq, Repr

/-- `_is_probably_ms_folder_link`. -/
def isProbablyMsFolderLink (url : String) : Bool :=
  let u := pyLower url
  if pyContains u (":f:") then true
  else
    (pyContains u ("sharepoint.com") || pyContains u ("onedrive.live.com"))
      && (pyContains u ("?e=") || pyContains u ("cid="))
      && pyContains u ("folder")

/-- The finding produced for a detected folder link. -/
def folderFinding (u : String) : AttachmentFinding :=
  { url := u
    kind := "folder"
    summary := "Folder link detected (SharePoint/OneDrive). Deep traversal requires Microsoft Graph integration." }

/-- The finding produced when fetching or parsing one attachment raises: the
exception description is embedded in the summary. -/
def failureFinding (u e : String) : AttachmentFinding :=
  { url := u
    kind := "unknown"
    summary := "Failed to analyze attachment: " ++ e }

/-- `analyze_attachments`.  The fetch + kind dispatch + per-kind parser body
of the `try` block is abstracted as `oracle`: `.ok f` is the finding it
returns, `.error e` a raised exception with description `e`. -/
def analyzeAttachments (oracle : String → Except String AttachmentFinding) :
    List String → List AttachmentFinding
  | [] => []
  | url :: rest =>
    let u := attCleanUrl url
    if u = "" then analyzeAttachments oracle rest
    else if isProbablyMsFolderLink u then
      folderFinding u :: analyzeAttachments oracle rest
    else
      (match oracle u with
       | .ok f => f
       | .error e => failureFinding u e) :: analyzeAttachments oracle rest

/-- The loop body of `analyze_attachments` for a single URL, as an optional
finding (`none` exactly when the re-cleaned URL is empty and the loop
`continue`s). -/
def processOne (oracle : String → Except String AttachmentFinding) (url : String) :
    Option AttachmentFinding :=
  let u := attCleanUrl url
  if u = "" then none
  else if isProbablyMsFolderLink u then some (folderFinding u)
  else
    match oracle u with
    | .ok f => some f
    | .error e => some (failureFinding u e)

/-- The analysis loop is the per-URL body mapped over the input list, with
`continue`d URLs removed. -/
theorem analyzeAttachments_eq_filterMap
    (o : String → Except String AttachmentFinding) (urls : List String) :
    analyzeAttachments o urls = urls.filterMap (processOne o) := by
  induction urls with
  | nil => rfl
  | cons u rest ih =>
    simp only [analyzeAttachments, processOne, List.filterMap_cons]
    by_cases h : attCleanUrl u = ""
    · simp [h, ih]
    · by_cases hf : isProbablyMsFolderLink (attCleanUrl u) = true
      · simp [h, hf, ih]
      · cases ho : o (attCleanUrl u) <;> simp [h, hf, ho, ih]

/-- Per-URL characterisation of the analysis loop, over any URL list: the
produced findings are, in order, one per input URL whose re-cleaned form is
non-empty, and a raising body yields the `unknown` failure finding. -/
theorem analyzeAttachments_spec
    (o : String → Except String AttachmentFinding)
    (hurl : ∀ u f, o u = .ok f → f.url = u) (urls : List String) :
    ((analyzeAttachments o urls).map AttachmentFinding.url
      = (urls.map attCleanUrl).filter (fun v => v ≠ "")) ∧
    (∀ u, u ∈ urls → attCleanUrl u ≠ "" →
      isProbablyMsFolderLink (attCleanUrl u) = false →
      ∀ e, o (attCleanUrl u) = .error e →
        failureFinding (attCleanUrl u) e ∈ analyzeAttachments o urls) := by
  induction urls with
  | nil => simp [analyzeAttachments]
  | cons u rest ih =>
    obtain ⟨ih1, ih2⟩ := ih
    constructor
    · simp only [analyzeAttachments, List.map_cons, List.filter_cons]
      by_cases h : attCleanUrl u = ""
      · simp [h, ih1]
      · by_cases hf : isProbablyMsFolderLink (attCleanUrl u) = true
        · simp [h, hf, ih1, folderFinding]
        · cases ho : o (attCleanUrl u) with
          | ok f => simp [h, hf, ho, ih1, hurl _ _ ho]
          | error e => simp [h, hf, ho, ih1, failureFinding]
    · intro v hv hne hnf e hoe
      simp only [analyzeAttachments]
      rcases List.mem_cons.mp hv with rfl | hvr
      · simp only [if_neg hne, hnf, Bool.false_eq_true, if_false, hoe]
        exact List.mem_cons_self _ _
      · have hmem := ih2 v hvr hne hnf e hoe
        by_cases h : attCleanUrl u = ""
        · simpa [h] using hmem
        · by_cases hf : isProbablyMsFolderLink (attCleanUrl u) = true
          · simp only [if_neg h, hf, if_true]
            exact List.mem_cons_of_mem _ hmem
          · simp only [if_neg h, hf, Bool.false_eq_true, if_false]
            exact List.mem_cons_of_mem _ hmem

/-- Claim C1 (amended).  Composing `all_attachment_urls` with
`analyze_attachments` yields one finding per deduplicated non-empty input URL
whose re-cleaning by the attachment module is also non-empty, in input order
(the attachment module re-cleans with its own `_clean_url`, whose result can
be empty on URLs the schema-level cleaner kept); a fetch or parse failure
yields a finding of kind `unknown` carrying the error description instead of
dropping the attachment or aborting the batch. -/
theorem c1_amended (pl : InputPayload)
    (o : String → Except String AttachmentFinding)
    (hurl : ∀ u f, o u = .ok f → f.url = u) :
    ((analyzeAttachments o pl.allAttachmentUrls).map AttachmentFinding.url
      = (pl.allAttachmentUrls.map attCleanUrl).filter (fun v => v ≠ "")) ∧
    (∀ u, u ∈ pl.allAttachmentUrls → attCleanUrl u ≠ "" →
      isProbablyMsFolderLink (attCleanUrl u) = false →
      ∀ e, o (attCleanUrl u) = .error e →
        failureFinding (attCleanUrl u) e ∈ analyzeAttachments o pl.allAttachmentUrls) :=
  analyzeAttachments_spec o hurl pl.allAttachmentUrls

/-- A payload whose single product carries one well-formed drawing URL. -/
def payloadW : InputPayload :=
  { products := [{ dwg := some ("http://x/a.pdf") }] }

/-- An oracle whose findings echo the fetched URL. -/
def okOracle : String → Except String AttachmentFinding :=
  fun u => .ok { url := u, kind := "pdf", summary := "parsed" }

theorem c1_amended_witness :
    InputPayload.allAttachmentUrls payloadW = ["http://x/a.pdf"] ∧
    ((analyzeAttachments okOracle payloadW.allAttachmentUrls).map AttachmentFinding.url
      = (payloadW.allAttachmentUrls.map attCleanUrl).filter (fun v => v ≠ "")) :=
  ⟨by decide,
   (c1_amended payloadW okOracle
     (fun _ f hf => by injection hf with h; rw [← h])).1⟩

/-- A payload whose single drawing URL is three double-quote chars followed by
a closing parenthesis: schema-level cleaning keeps a single double-quote char
as the URL, which the attachment module then cleans to the empty string. -/
def payloadQuote : InputPayload :=
  { products := [{ dwg := some ("\"\"\")") }] }

/-- Claim C1 as stated is false: this payload yields exactly one
deduplicated, non-empty input URL, yet `analyze_attachments` returns no
finding for it (the oracle is never consulted — the URL is dropped by the
re-cleaning before any fetch). -/
theorem c1_counterexample :
    (InputPayload.allAttachmentUrls payloadQuote).length = 1 ∧
    analyzeAttachments (fun _ => .error "ConnectError: boom")
      (InputPayload.allAttachmentUrls payloadQuote) = [] := by
  exact ⟨by decide, by decide⟩

/-! ## Two-marker output parser (`task.py`, `_parse_two_outputs`) -/

/-- The OUTPUT 1 marker variants, searched in order. -/
def candidates1 : List String :=
  ["=== output 1", "## === output 1", "# === output 1",
   "output 1:", "output 1 -", "output 1 —"]

/-- The OUTPUT 2 marker variants, searched in order. -/
def candidates2 : List String :=
  ["=== output 2", "## === output 2", "# === output 2",
   "output 2:", "output 2 -", "output 2 —"]

/-- The candidate loop: index of the first candidate found, `-1` if none. -/
def findFirstMarker (tLow : String) : List String → Int
  | [] => -1
  | c :: rest =>
    let j := pyFind tLow c
    if j ≥ 0 then j else findFirstMarker tLow rest

/-- `_parse_two_outputs`: marker search happens on the lowercased copy, the
slicing on the original (stripped) string. -/
def parseTwoOutputs (modelText : String) : String × String :=
  let t := pyStrip modelText
  if t = "" then ("", "")
  else
    let tLow := pyLower t
    let i1 := findFirstMarker tLow candidates1
    let i2 := findFirstMarker tLow candidates2
    if i1 ≥ 0 && i2 > i1 then
      (pyStrip (pySlice t i1 i2), pyStrip (pySliceFrom t i2))
    else if i1 ≥ 0 && i2 < 0 then
      (pyStrip (pySliceFrom t i1), "")
    else if i2 ≥ 0 && i1 < 0 then
      (pyStrip (pySlice t 0 i2), pyStrip (pySliceFrom t i2))
    else
      ("", t)

/-- Claim C3 (amended).  The parser is a total function by construction; an
input containing neither marker yields `("", stripped input)` — the second
section is the whitespace-stripped input, not the entire input — and the
concrete input `"OUTPUT 2: foo"` (which contains only an OUTPUT 2 marker)
yields `("", "OUTPUT 2: foo")`. -/
theorem c3_amended :
    (∀ s, findFirstMarker (pyLower (pyStrip s)) candidates1 = -1 →
       findFirstMarker (pyLower (pyStrip s)) candidates2 = -1 →
       parseTwoOutputs s = ("", pyStrip s)) ∧
    parseTwoOutputs ("OUTPUT 2: foo") = ("", "OUTPUT 2: foo") := by
  constructor
  · intro s h1 h2
    unfold parseTwoOutputs
    by_cases ht : pyStrip s = ""
    · simp [ht]
    · simp [ht, h1, h2]
  · decide

theorem c3_amended_witness :
    findFirstMarker (pyLower (pyStrip ("hello"))) candidates1 = -1 ∧
    findFirstMarker (pyLower (pyStrip ("hello"))) candidates2 = -1 ∧
    parseTwoOutputs ("hello") = ("", pyStrip ("hello")) :=
  ⟨by decide, by decide, c3_amended.1 ("hello") (by decide) (by decide)⟩

/-- Claim C3 as stated is false: the input `" x "` contains neither marker,
yet the parser returns `("", "x")`, not `("", " x ")` — the second section is
the stripped input, not the entire input. -/
theorem c3_counterexample :
    findFirstMarker (pyLower (pyStrip (" x "))) candidates1 = -1 ∧
    findFirstMarker (pyLower (pyStrip (" x "))) candidates2 = -1 ∧
    parseTwoOutputs (" x ") ≠ ("", " x ") := by
  exact ⟨by decide, by decide, by decide⟩

/-! ## Configuration (`config.py`)

Only the fields consumed by the modelled components are carried; Python ints
are `Int`, strings `String`, booleans `Bool`.  Defaults follow `config.py`. -/

structure Settings where
  anthropicApiKey : String := ""
  anthropicModel : String := "claude-3-5-sonnet-latest"
  maxAttachmentBytes : Int := 50 * 1024 * 1024
  maxPdfPages : Int := 60
  minPdfTextCharsPerPage : Int := 40
  minOcrCharsToAccept : Int := 80
  enableClaudeVisionFallback : Bool := true
  enableDocaiOcr : Bool := true
  docaiProjectId : String := ""
  docaiLocation : String := "asia-south1"
  docaiProcessorId : String := ""
  docaiSaJsonB64 : String := ""
  googleSaJsonB64 : String := ""
  maxExcelRows : Int := 250
  maxExcelCols : Int := 40
  maxExcelTablesPerSheet : Int := 5
  maxQueueSize : Int := 50
  maxConcurrentJobs : Int := 2
  jobTimeoutSec : Int := 420

/-! ## Job execution status recording (`api.py`, `_run_job`) -/

/-- A job pulled from the queue. -/
structure Job where
  runId : String
  mode : String
  rowId : String
deriving DecidableEq, Repr

/-- A status event handed to `log_job_event`. -/
structure JobEvent where
  status : String
  message : String
deriving DecidableEq, Repr

/-- Outcome of the job body executed under `asyncio.wait_for`: normal
completion, expiry of the overall wall-clock timeout (`asyncio.TimeoutError`),
or any other exception with its type name and text. -/
inductive BodyOutcome where
  | ok : BodyOutcome
  | timeout : BodyOutcome
  | exc (name msg : String) : BodyOutcome
deriving DecidableEq, Repr

/-- The status events `_run_job` records (best-effort logging failures are
swallowed and do not alter the recorded sequence): `RUNNING` at start, then
`DONE` on normal completion, or `FAILED` with the configured duration in the
message on timeout, or `FAILED` with the exception description otherwise. -/
def runJobEvents (cfg : Settings) (outcome : BodyOutcome) : List JobEvent :=
  { status := "RUNNING", message := "Job started" } ::
  (match outcome with
   | .ok => [{ status := "DONE", message := "Job completed" }]
   | .timeout =>
     [{ status := "FAILED"
        message := "Job timeout after " ++ toString cfg.jobTimeoutSec ++ "s" }]
   | .exc n m => [{ status := "FAILED", message := n ++ ": " ++ m }])

/-- Claim C4 (amended).  Normal completion records `DONE`; timeout expiry
records status `FAILED` — not a distinct `TIMED_OUT` status, which appears
nowhere in the code — with the configured duration in the message; any other
exception records `FAILED` with its description. -/
theorem c4_amended (cfg : Settings) (n m : String) :
    runJobEvents cfg .ok =
      [{ status := "RUNNING", message := "Job started" },
       { status := "DONE", message := "Job completed" }] ∧
    runJobEvents cfg .timeout =
      [{ status := "RUNNING", message := "Job started" },
       { status := "FAILED"
         message := "Job timeout after " ++ toString cfg.jobTimeoutSec ++ "s" }] ∧
    runJobEvents cfg (.exc n m) =
      [{ status := "RUNNING", message := "Job started" },
       { status := "FAILED", message := n ++ ": " ++ m }] :=
  ⟨rfl, rfl, rfl⟩

/-- Claim C4 as stated is false: with the default configuration, timeout
expiry records status `FAILED` (with the duration in the message), never a
`TIMED_OUT` status. -/
theorem c4_counterexample :
    runJobEvents {} .timeout =
      [{ status := "RUNNING", message := "Job started" },
       { status := "FAILED", message := "Job timeout after 420s" }] ∧
    (∀ e, e ∈ runJobEvents {} .timeout → e.status ≠ "TIMED_OUT") := by
  exact ⟨by decide, by decide⟩

/-! ## Queue admission (`api.py`, `_enqueue_or_reject`) -/

/-- Result of one submission: the acknowledgement status sent to the caller
(`"rejected"` with HTTP 429, or `"queued"` with HTTP 202), the audit status
recorded, and the queue contents afterwards. -/
structure SubmitResult where
  ackStatus : String
  auditStatus : String
  queueAfter : List Job
deriving DecidableEq, Repr

/-- `_enqueue_or_reject`: the effective maximum is `max(1, max_queue_size)`;
at or above it the submission is answered `rejected` without enqueuing,
otherwise the job is appended and acknowledged as `queued`. -/
def enqueueOrReject (cfg : Settings) (queue : List Job) (job : Job) : SubmitResult :=
  let maxQ : Int := max 1 cfg.maxQueueSize
  if (queue.length : Int) ≥ maxQ then
    { ackStatus := "rejected", auditStatus := "REJECTED_QUEUE_FULL", queueAfter := queue }
  else
    { ackStatus := "queued", auditStatus := "QUEUED", queueAfter := queue ++ [job] }

/-- Claim C9 (amended).  The threshold is the effective maximum
`max(1, configured max_queue_size)`, not the configured value itself: at or
above it the submission is rejected immediately and the queue is unchanged;
below it the job is enqueued at the back and acknowledged as queued. -/
theorem c9_amended (cfg : Settings) (queue : List Job) (job : Job) :
    ((queue.length : Int) ≥ max 1 cfg.maxQueueSize →
      enqueueOrReject cfg queue job =
        { ackStatus := "rejected", auditStatus := "REJECTED_QUEUE_FULL"
          queueAfter := queue }) ∧
    ((queue.length : Int) < max 1 cfg.maxQueueSize →
      enqueueOrReject cfg queue job =
        { ackStatus := "queued", auditStatus := "QUEUED"
          queueAfter := queue ++ [job] }) := by
  constructor
  · intro h
    simp [enqueueOrReject, h]
  · intro h
    simp [enqueueOrReject, not_le.mpr h]

/-- One concrete job. -/
def jobW : Job :=
  { runId := "abc123", mode := "pricing", rowId := "r1" }

theorem c9_amended_witness :
    ((([jobW].length : Int) ≥ max 1 (1 : Int)) ∧
      enqueueOrReject { maxQueueSize := 1 } [jobW] jobW =
        { ackStatus := "rejected", auditStatus := "REJECTED_QUEUE_FULL"
          queueAfter := [jobW] }) ∧
    ((([] : List Job).length : Int) < max 1 (50 : Int) ∧
      enqueueOrReject {} [] jobW =
        { ackStatus := "queued", auditStatus := "QUEUED", queueAfter := [jobW] }) :=
  ⟨⟨by decide, (c9_amended { maxQueueSize := 1 } [jobW] jobW).1 (by decide)⟩,
   ⟨by decide, (c9_amended {} [] jobW).2 (by decide)⟩⟩

/-- Claim C9 as stated is false at `max_queue_size = 0`: the queue depth `0`
is greater than or equal to the configured maximum `0`, yet the submission is
enqueued and acknowledged as queued (the code clamps the threshold to
`max(1, configured)`). -/
theorem c9_counterexample :
    ((0 : Int) ≥ (({ maxQueueSize := 0 } : Settings)).maxQueueSize) ∧
    enqueueOrReject { maxQueueSize := 0 } [] jobW =
      { ackStatus := "queued", auditStatus := "QUEUED", queueAfter := [jobW] } := by
  exact ⟨by decide, by decide⟩

/-! ## Image extractor (`parsers/image.py`, `analyze_image_bytes`) -/

/-- Marker appended when the image text blob exceeds its budget. -/
def imageTruncMarker : String := "\n\n...[TRUNCATED]..."

/-- The observable outcome of `analyze_image_bytes`, instrumented with which
extraction stages ran.  `ocrInvoked` is constantly `false` because the source
function contains no OCR call at all: it goes straight to the vision model. -/
structure ImageResult where
  url : String
  summary : String
  hasVision : Bool
  extractedText : String
  visionInvoked : Bool
  ocrInvoked : Bool
deriving DecidableEq, Repr

/-- `_claude_vision_text` with the model call abstracted as `reply`; returns
the recovered text together with whether the generation call was made.  A
raising call (`.error`) counts as made; the caller catches the exception and
falls back to the empty string. -/
def claudeVisionText (cfg : Settings) (reply : Except String String) : String × Bool :=
  if !cfg.enableClaudeVisionFallback then ("", false)
  else if pyStrip cfg.anthropicApiKey = "" then ("", false)
  else if pyStrip cfg.anthropicModel = "" then ("", false)
  else
    match reply with
    | .ok t => (pyStrip t, true)
    | .error _ => ("", true)

/-- The bounded `extracted_text` blob assembled by `analyze_image_bytes`
(internal budget `MAX_IMAGE_TEXT_CHARS = 25_000`). -/
def imageExtractedText (url vision : String) : String :=
  let blocks :=
    ["## IMAGE: " ++ url,
     if pyStrip vision ≠ "" then "VISION:\n" ++ pyStrip vision
     else "VISION:\n(no vision output)"]
  let e := pyStrip (pyJoin ("\n\n") blocks)
  if e.length > 25000 then pyTake e (25000 - 80) ++ imageTruncMarker else e

/-- `analyze_image_bytes`: optionally call the vision model (guarded only by
configuration, not by any OCR result), then assemble the bounded blob. -/
def analyzeImageBytes (cfg : Settings) (url : String) (reply : Except String String) :
    ImageResult :=
  let (vision, visionInvoked) :=
    if cfg.enableClaudeVisionFallback then claudeVisionText cfg reply else ("", false)
  { url := url
    summary :=
      if pyStrip vision ≠ "" then pyStrip vision
      else "Image analyzed. No vision output available."
    hasVision := pyStrip vision ≠ ""
    extractedText := imageExtractedText url vision
    visionInvoked := visionInvoked
    ocrInvoked := false }

/-- Claim C7 (amended).  The image extractor performs no local OCR at all;
the vision-model call is made unconditionally whenever the vision fallback is
enabled and an API key and model are configured — it is not conditioned on
any OCR result, and `min_ocr_chars_to_accept` is never consulted. -/
theorem c7_amended (cfg : Settings) (url : String) (reply : Except String String) :
    (analyzeImageBytes cfg url reply).visionInvoked =
      (cfg.enableClaudeVisionFallback
        && pyStrip cfg.anthropicApiKey ≠ ""
        && pyStrip cfg.anthropicModel ≠ "") ∧
    (analyzeImageBytes cfg url reply).ocrInvoked = false := by
  refine ⟨?_, rfl⟩
  by_cases he : cfg.enableClaudeVisionFallback
  · by_cases hk : pyStrip cfg.anthropicApiKey = ""
    · simp [analyzeImageBytes, claudeVisionText, he, hk]
    · by_cases hm : pyStrip cfg.anthropicModel = ""
      · simp [analyzeImageBytes, claudeVisionText, he, hk, hm]
      · cases reply <;> simp [analyzeImageBytes, claudeVisionText, he, hk, hm]
  · simp [analyzeImageBytes, he]

/-- Claim C7 as stated is false: with the vision fallback enabled and
credentials configured, no OCR stage runs yet the vision call is made —
the vision call is unconditional, not a fallback gated on OCR yielding fewer
than `min_ocr_chars_to_accept` characters. -/
theorem c7_counterexample :
    (analyzeImageBytes { anthropicApiKey := "k", anthropicModel := "m" }
      ("http://x/p.png") (.ok "cube 30x30, steel")).ocrInvoked = false ∧
    (analyzeImageBytes { anthropicApiKey := "k", anthropicModel := "m" }
      ("http://x/p.png") (.ok "cube 30x30, steel")).visionInvoked = true := by
  exact ⟨by decide, by decide⟩

/-! ## HTTP fetcher (`attachments.py`, `HttpFetcher.fetch`) -/

/-- Python `str.isdigit()` (ASCII digits). -/
def pyIsDigit (s : String) : Bool :=
  s ≠ "" && s.toList.all (fun c => '0' ≤ c && c ≤ '9')

/-- Python `int(s)` on a digit string. -/
def pyStrToNat (s : String) : Nat :=
  s.toList.foldl (fun acc c => acc * 10 + (c.toNat - 48)) 0

/-- A HEAD response as seen by the fetcher. -/
structure HeadResp where
  statusCode : Nat
  contentType : Option String
  contentLength : Option String

/-- A GET response as seen by the fetcher; bytes are modelled as a list of
byte values (only their count matters to the size checks). -/
structure GetResp where
  statusCode : Nat
  contentType : Option String
  content : List Nat

/-- The HEAD best-effort block of `fetch`: its net effect is the
`content_type` assignment (which happens before any raise) together with the
exception the block would raise.  The caller discards the exception —
`except Exception: pass` — which swallows the early too-large `ValueError`
along with genuine HEAD failures. -/
def headProbe (maxBytes : Int) (head : Except String HeadResp) :
    Option String × Except String Unit :=
  match head with
  | .error e => (none, .error e)
  | .ok h =>
    if h.statusCode < 400 then
      let ct := h.contentType
      match h.contentLength with
      | some cl =>
        if cl ≠ "" && pyIsDigit cl && (pyStrToNat cl : Int) > maxBytes then
          (ct, .error ("Attachment too large (content-length=" ++ cl ++ " > "
            ++ toString maxBytes ++ ")"))
        else (ct, .ok ())
      | none => (ct, .ok ())
    else (none, .ok ())

/-- The outcome of `HttpFetcher.fetch`, instrumented with whether the GET
download was performed. -/
structure FetchOutcome where
  result : Except String (List Nat × Option String)
  getCalled : Bool

/-- `HttpFetcher.fetch` with the two HTTP calls abstracted as oracles.  The
HEAD block result is discarded except for the content-type assignment; GET
always follows; the downloaded size is checked against the maximum. -/
def fetch (cfg : Settings) (head : Except String HeadResp)
    (get : Except String GetResp) : FetchOutcome :=
  let maxBytes := cfg.maxAttachmentBytes
  let ct0 := (headProbe maxBytes head).1
  match get with
  | .error e => { result := .error e, getCalled := true }
  | .ok r =>
    if r.statusCode ≥ 400 then
      { result := .error ("HTTPStatusError: " ++ toString r.statusCode), getCalled := true }
    else
      let contentType :=
        match r.contentType with
        | some ct => if ct ≠ "" then some ct else ct0
        | none => ct0
      if (r.content.length : Int) > maxBytes then
        { result := .error ("Attachment too large (bytes=" ++ toString r.content.length
            ++ " > " ++ toString maxBytes ++ ")"), getCalled := true }
      else
        { result := .ok (r.content, contentType), getCalled := true }

/-- A HEAD response declaring a content-length of 100 bytes. -/
def headDeclaringTooLarge : Except String HeadResp :=
  .ok { statusCode := 200, contentType := some ("application/pdf"),
        contentLength := some ("100") }

/-- A successful GET whose actual body is only 10 bytes. -/
def getSmallOk : Except String GetResp :=
  .ok { statusCode := 200, contentType := some ("application/pdf"),
        content := List.replicate 10 0 }

/-- Claim C8 is right and the code is wrong: with `max_attachment_bytes = 50`
and a HEAD response declaring `content-length: 100`, the early too-large
`ValueError` is raised inside the HEAD `try` block — but that block's
`except Exception: pass` swallows it, so execution falls through to the GET
download and, because the actual body is small, the fetch succeeds instead of
failing before the GET. -/
theorem c8_bug_evaluation :
    (headProbe 50 headDeclaringTooLarge).2 =
      .error ("Attachment too large (content-length=100 > 50)") ∧
    (fetch { maxAttachmentBytes := 50 } headDeclaringTooLarge getSmallOk).result =
      .ok (List.replicate 10 0, some ("application/pdf")) ∧
    (fetch { maxAttachmentBytes := 50 } headDeclaringTooLarge getSmallOk).getCalled
      = true := by
  exact ⟨rfl, rfl, rfl⟩

/-! ## Spreadsheet extractor (`parsers/excel.py`)

A sheet is modelled by its title and the bounded row×column matrix that
`_extract_sheet_matrix` produces from the (external) openpyxl worksheet:
every cell already stringified and stripped by `_cell_to_str`. -/

/-- `looks_like_header` (inside `_detect_table_regions`): at least two
non-empty cells, and the count of short cells (≤30 chars) reaches
`max(2, int(0.6 * len(non_empty)))`.  CPython computes `int(0.6 * n)` with a
float product; for every `n` in the bounded-matrix range this equals
`⌊3n/5⌋`, which is how it is modelled. -/
def looksLikeHeader (row : List String) : Bool :=
  let nonEmpty := row.filter (fun c => c ≠ "")
  if nonEmpty.length < 2 then false
  else
    let short := (nonEmpty.filter (fun c => c.length ≤ 30)).length
    decide (short ≥ max 2 (3 * nonEmpty.length / 5))

/-- Modelled from the spec: a candidate header row has at least 2 non-empty
cells and at least 60% of its non-empty cells are short (≤30 characters),
i.e. `5 * short ≥ 3 * nonEmpty`. -/
def specCandidateHeader (row : List String) : Bool :=
  let nonEmpty := row.filter (fun c => c ≠ "")
  decide (2 ≤ nonEmpty.length) &&
    decide (3 * nonEmpty.length ≤ 5 * ((nonEmpty.filter (fun c => c.length ≤ 30)).length))

/-- `trim_right`: drop trailing empty cells, the whole row becoming `[]` when
every cell is empty. -/
def trimRight (rr : List String) : List String :=
  (rr.reverse.dropWhile (fun c => c = "")).reverse

/-- Count of non-empty cells of a row (`ne2` in the source). -/
def rowNonEmptyCount (row : List String) : Nat :=
  (row.filter (fun c => c ≠ "")).length

/-- A detected `TableRegion`. -/
structure TableRegion where
  startRow : Nat
  endRow : Nat
  header : List String
  rowsSample : List (List String)
  rowCountSampled : Nat
deriving DecidableEq, Repr

/-- The scanning loop of `_detect_table_regions`: `rIdx` is the 0-based index
of the current row, `found` the number of tables emitted so far (the `while`
guard also checks `found < max_tables`).  On a header row the body rows run
until the first all-empty separator row; scanning resumes after it.  The fuel
starts at the row count; every step consumes at least one row. -/
def detectTablesGo (maxTables : Int) : Nat → List (List String) → Nat → Int → List TableRegion
  | 0, _, _, _ => []
  | _, [], _, _ => []
  | fuel + 1, row :: rest, rIdx, found =>
    if found ≥ maxTables then []
    else if looksLikeHeader row then
      let header := trimRight row
      let body := (rest.takeWhile (fun r2 => rowNonEmptyCount r2 ≠ 0)).map trimRight
      let consumed := body.length
      let r2 := rIdx + 1 + consumed
      let rest2 := (rest.drop consumed).drop 1
      if header ≠ [] ∧ body ≠ [] then
        { startRow := rIdx + 1
          endRow := r2
          header := header.take 40
          rowsSample := (body.take 200).map (fun b => b.take 40)
          rowCountSampled := min body.length 200 } ::
          detectTablesGo maxTables fuel rest2 (r2 + 1) (found + 1)
      else
        detectTablesGo maxTables fuel rest2 (r2 + 1) found
    else
      detectTablesGo maxTables fuel rest (rIdx + 1) found

/-- `_detect_table_regions`. -/
def detectTableRegions (rows : List (List String)) (maxTables : Int) : List TableRegion :=
  detectTablesGo maxTables rows.length rows 0 0

/-- Claim C5 (amended).  A row is classified as a candidate header iff it has
at least 2 non-empty cells and its short-cell count (≤30 chars) is at least
`max(2, ⌊60% of the non-empty count⌋)` — the floored-percentage test is
additionally clamped from below by 2, which is weaker than a true 60% test
for rows with 4 or with 6 to 9 non-empty cells. -/
theorem c5_amended (row : List String) :
    looksLikeHeader row = true ↔
      (2 ≤ (row.filter (fun c => c ≠ "")).length ∧
        max 2 (Nat.floor ((3 : ℚ) / 5 * ((row.filter (fun c => c ≠ "")).length : ℚ)))
          ≤ (((row.filter (fun c => c ≠ "")).filter (fun c => c.length ≤ 30)).length)) := by
  have hfloor :
      Nat.floor ((3 : ℚ) / 5 * (((row.filter (fun c => c ≠ "")).length : ℕ) : ℚ))
        = 3 * (row.filter (fun c => c ≠ "")).length / 5 := by
    rw [show (3 : ℚ) / 5 * (((row.filter (fun c => c ≠ "")).length : ℕ) : ℚ)
        = ((3 * (row.filter (fun c => c ≠ "")).length : ℕ) : ℚ) / ((5 : ℕ) : ℚ) by
      push_cast; ring]
    rw [Nat.floor_div_nat, Nat.floor_natCast]
  rw [hfloor]
  unfold looksLikeHeader
  by_cases h : (row.filter (fun c => c ≠ "")).length < 2
  · simp only [h, if_true]
    constructor
    · intro hf; cases hf
    · intro ⟨h2, _⟩; omega
  · simp only [h, if_false, decide_eq_true_eq]
    constructor
    · intro hs; exact ⟨by omega, hs⟩
    · intro ⟨_, hs⟩; exact hs

/-- A row with four non-empty cells of which exactly two are short. -/
def rowFourTwoShort : List String :=
  ["aa", "bb",
   "1234567890123456789012345678901",
   "1234567890123456789012345678901"]

/-- Claim C5 as stated is false: a row with 4 non-empty cells of which only 2
(50%) are short is classified as a candidate header by the code — the
`max(2, int(0.6*4)) = 2` threshold passes — although fewer than 60% of its
non-empty cells are short. -/
theorem c5_counterexample :
    looksLikeHeader rowFourTwoShort = true ∧
    specCandidateHeader rowFourTwoShort = false := by
  exact ⟨by decide, by decide⟩

/-! ## Excel text assembly (`analyze_excel_bytes`) -/

/-- Marker of `_rows_to_tsv` when the TSV dump exceeds its budget. -/
def tsvTruncMarker : String := "...[TRUNCATED: sheet text exceeded budget]..."

/-- Marker appended when a table block exceeds the remaining budget. -/
def excelTableMarker : String := "...[TRUNCATED: table text exceeded budget]..."

/-- Marker appended when the grid block exceeds the remaining budget. -/
def excelGridMarker : String := "...[TRUNCATED: grid text exceeded budget]..."

/-- The line-collection loop of `_rows_to_tsv`: keep non-empty rows as
tab-joined lines while the running count stays within `max_chars`, else
append the marker and stop. -/
def rowsToTsvGo (maxChars : Int) : List (List String) → Int → List String
  | [], _ => []
  | rr :: rest, used =>
    if !(rr.any (fun c => c ≠ "")) then rowsToTsvGo maxChars rest used
    else
      let line := pyRStrip (pyJoin ("\t") rr)
      if line = "" then rowsToTsvGo maxChars rest used
      else if used + (line.length : Int) + 1 > maxChars then [tsvTruncMarker]
      else line :: rowsToTsvGo maxChars rest (used + line.length + 1)

/-- `_rows_to_tsv`. -/
def rowsToTsv (rows : List (List String)) (maxChars : Int) : String :=
  pyStrip (pyJoin ("\n") (rowsToTsvGo maxChars rows 0))

/-- A worksheet as consumed by the text assembly: its title and the bounded
matrix produced by `_extract_sheet_matrix`. -/
structure Sheet where
  title : String
  matrix : List (List String)

/-- The `## EXCEL SHEET: {title}` header block. -/
def sheetHeaderBlock (ws : Sheet) : String :=
  "## EXCEL SHEET: " ++ ws.title

/-- The text block of one detected table (1-based enumeration index `ti`). -/
def tableBlock (ti : Nat) (t : TableRegion) : String :=
  let blockLines :=
    ("[TABLE " ++ toString ti ++ "] start_row=" ++ toString t.startRow
      ++ " end_row=" ++ toString t.endRow)
    :: pyJoin ("\t") t.header
    :: t.rowsSample.map (fun rr => pyJoin ("\t") rr)
  pyStrip (pyJoin ("\n") blockLines)

/-- The per-sheet table-block loop: blocks are appended while they fit
(consuming `len + 2` of the remaining budget, accounting for the later
`"\n\n"` join); a block that does not fit appends the marker, zeroes the
budget and breaks. -/
def excelTablesGo : List (Nat × TableRegion) → List String × Int → List String × Int
  | [], st => st
  | (ti, t) :: rest, (bs, r) =>
    if r ≤ 0 then (bs, r)
    else
      let block := tableBlock ti t
      if (block.length : Int) + 2 > r then (bs ++ [excelTableMarker], 0)
      else excelTablesGo rest (bs ++ [block], r - ((block.length : Int) + 2))

/-- The grid-dump fallback: emitted only when the detected tables sampled
fewer than 20 rows, bounded by `min(remaining, 70000)`. -/
def gridStep (matrix : List (List String)) (tables : List TableRegion)
    (bs : List String) (r : Int) : List String × Int :=
  if r > 0 then
    let tableRowSamples := (tables.map (fun t => t.rowsSample.length)).sum
    if tableRowSamples < 20 then
      let gridText := rowsToTsv matrix (min r 70000)
      if gridText ≠ "" then
        let block := "[SHEET_GRID_TSV]\n" ++ gridText
        if (block.length : Int) + 2 > r then (bs ++ [excelGridMarker], 0)
        else (bs ++ [block], r - ((block.length : Int) + 2))
      else (bs, r)
    else (bs, r)
  else (bs, r)

/-- One iteration of the per-sheet assembly loop of `analyze_excel_bytes`:
the sheet header is appended whenever any budget remains — but it is
under-counted (`len + 1` instead of the `len + 2` consumed by the `"\n\n"`
join) and may overshoot the remaining budget — then table blocks, then the
grid fallback. -/
def sheetStep (cfg : Settings) (st : List String × Int) (ws : Sheet) :
    List String × Int :=
  let tables := detectTableRegions ws.matrix cfg.maxExcelTablesPerSheet
  if st.2 > 0 then
    let st1 : List String × Int :=
      (st.1 ++ [sheetHeaderBlock ws], st.2 - (((sheetHeaderBlock ws).length : Int) + 1))
    let st2 :=
      if tables ≠ [] ∧ st1.2 > 0 then excelTablesGo (List.enumFrom 1 tables) st1
      else st1
    gridStep ws.matrix tables st2.1 st2.2
  else st

/-- The bounded `extracted_text` blob of `analyze_excel_bytes` (global budget
`MAX_EXCEL_TEXT_CHARS = 180_000`); sheet summaries, formula relations and
embedded-image analysis do not touch the blocks or the budget and are
omitted. -/
def excelExtractedText (cfg : Settings) (sheets : List Sheet) : String :=
  pyStrip (pyJoin ("\n\n") (sheets.foldl (sheetStep cfg) ([], (180000 : Int))).1)

/-! ## Length accounting helpers -/

/-- Budget weight of a block list: each block counts its length plus the two
join chars. -/
def blocksWeight (bs : List String) : Int :=
  (bs.map (fun b => (b.length : Int) + 2)).sum

theorem blocksWeight_nil : blocksWeight [] = 0 := rfl

theorem blocksWeight_append (bs xs : List String) :
    blocksWeight (bs ++ xs) = blocksWeight bs + blocksWeight xs := by
  simp [blocksWeight]

theorem blocksWeight_singleton (b : String) :
    blocksWeight [b] = (b.length : Int) + 2 := by
  simp [blocksWeight]

theorem blocksWeight_nonneg (bs : List String) : 0 ≤ blocksWeight bs := by
  induction bs with
  | nil => simp [blocksWeight]
  | cons b tl ih =>
    have : blocksWeight (b :: tl) = ((b.length : Int) + 2) + blocksWeight tl := by
      simp [blocksWeight]
    rw [this]
    positivity

theorem length_mk (l : List Char) : (String.mk l).length = l.length := rfl

theorem toList_append (s t : String) : (s ++ t).toList = s.toList ++ t.toList := rfl

theorem dropWhile_length_le (p : Char → Bool) (l : List Char) :
    (l.dropWhile p).length ≤ l.length := by
  induction l with
  | nil => simp
  | cons c tl ih =>
    rw [List.dropWhile_cons]
    split
    · exact Nat.le_succ_of_le ih
    · simp

theorem pyStrip_length_le (s : String) : (pyStrip s).length ≤ s.length := by
  unfold pyStrip pyStripChars
  rw [length_mk, List.length_reverse]
  calc ((s.toList.dropWhile pyIsSpace).reverse.dropWhile pyIsSpace).length
      ≤ (s.toList.dropWhile pyIsSpace).reverse.length := dropWhile_length_le _ _
    _ = (s.toList.dropWhile pyIsSpace).length := List.length_reverse _
    _ ≤ s.toList.length := dropWhile_length_le _ _
    _ = s.length := rfl

theorem pyTake_length_le (s : String) (n : Nat) : (pyTake s n).length ≤ n := by
  unfold pyTake
  rw [length_mk, List.length_take]
  exact Nat.min_le_left _ _

theorem pyJoin_length_le (bs : List String) :
    ((pyJoin ("\n\n") bs).length : Int) ≤ blocksWeight bs := by
  induction bs with
  | nil => simp [pyJoin, blocksWeight]
  | cons x tl ih =>
    cases tl with
    | nil =>
      simp only [pyJoin, blocksWeight, List.map_cons, List.map_nil, List.sum_cons,
        List.sum_nil]
      omega
    | cons y tl2 =>
      have hx : pyJoin ("\n\n") (x :: y :: tl2) = x ++ ("\n\n") ++ pyJoin ("\n\n") (y :: tl2) := rfl
      rw [hx]
      have hlen : (x ++ ("\n\n") ++ pyJoin ("\n\n") (y :: tl2)).length
          = x.length + 2 + (pyJoin ("\n\n") (y :: tl2)).length := by
        rw [String.length_append, String.length_append,
          show ("\n\n" : String).length = 2 from rfl]
      have hw : blocksWeight (x :: y :: tl2)
          = ((x.length : Int) + 2) + blocksWeight (y :: tl2) := by
        simp [blocksWeight]
      rw [hlen, hw]
      push_cast
      omega

theorem pyJoin_length_le_of_ne_nil (bs : List String) (h : bs ≠ []) :
    ((pyJoin ("\n\n") bs).length : Int) + 2 ≤ blocksWeight bs := by
  induction bs with
  | nil => exact absurd rfl h
  | cons x tl ih =>
    cases tl with
    | nil =>
      simp only [pyJoin, blocksWeight, List.map_cons, List.map_nil, List.sum_cons,
        List.sum_nil]
      omega
    | cons y tl2 =>
      have hx : pyJoin ("\n\n") (x :: y :: tl2) = x ++ ("\n\n") ++ pyJoin ("\n\n") (y :: tl2) := rfl
      have hlen : (x ++ ("\n\n") ++ pyJoin ("\n\n") (y :: tl2)).length
          = x.length + 2 + (pyJoin ("\n\n") (y :: tl2)).length := by
        rw [String.length_append, String.length_append,
          show ("\n\n" : String).length = 2 from rfl]
      have hw : blocksWeight (x :: y :: tl2)
          = ((x.length : Int) + 2) + blocksWeight (y :: tl2) := by
        simp [blocksWeight]
      have hrec := ih (by simp)
      rw [hx, hlen, hw]
      push_cast
      omega

/-! ## Excel budget accounting -/

/-- Slack the assembly can add on top of the 180000 budget for one sheet: the
sheet header is appended under a `remaining > 0` guard only (it both
under-counts the join separator by one char and can overshoot the remaining
budget), and a truncation marker is appended without being budgeted. -/
def sheetOverhead (ws : Sheet) : Int :=
  (((sheetHeaderBlock ws).length : Int) + 2)
    + ((excelTableMarker.length : Int) + 2)
    + ((excelGridMarker.length : Int) + 2)

/-- Total slack over all sheets. -/
def excelOverhead (sheets : List Sheet) : Int :=
  (sheets.map sheetOverhead).sum

theorem excelTablesGo_bound (l : List (Nat × TableRegion)) (bs : List String) (r : Int) :
    blocksWeight (excelTablesGo l (bs, r)).1 + max (excelTablesGo l (bs, r)).2 0
      ≤ blocksWeight bs + max r 0 + ((excelTableMarker.length : Int) + 2) := by
  induction l generalizing bs r with
  | nil =>
    show blocksWeight bs + max r 0
      ≤ blocksWeight bs + max r 0 + ((excelTableMarker.length : Int) + 2)
    omega
  | cons p rest ih =>
    obtain ⟨ti, t⟩ := p
    simp only [excelTablesGo]
    by_cases h0 : r ≤ 0
    · rw [if_pos h0]
      dsimp only
      omega
    · rw [if_neg h0]
      by_cases hb : ((tableBlock ti t).length : Int) + 2 > r
      · rw [if_pos hb]
        dsimp only
        rw [blocksWeight_append, blocksWeight_singleton]
        omega
      · rw [if_neg hb]
        have hrec := ih (bs ++ [tableBlock ti t]) (r - (((tableBlock ti t).length : Int) + 2))
        rw [blocksWeight_append, blocksWeight_singleton] at hrec
        omega

theorem gridStep_bound (matrix : List (List String)) (tables : List TableRegion)
    (bs : List String) (r : Int) :
    blocksWeight (gridStep matrix tables bs r).1 + max (gridStep matrix tables bs r).2 0
      ≤ blocksWeight bs + max r 0 + ((excelGridMarker.length : Int) + 2) := by
  unfold gridStep
  by_cases h0 : r > 0
  · rw [if_pos h0]
    by_cases hs : (tables.map (fun t => t.rowsSample.length)).sum < 20
    · rw [if_pos hs]
      by_cases hg : rowsToTsv matrix (min r 70000) ≠ ""
      · rw [if_pos hg]
        by_cases hb : ((("[SHEET_GRID_TSV]\n" ++ rowsToTsv matrix (min r 70000)).length : Int)) + 2 > r
        · rw [if_pos hb]
          dsimp only
          rw [blocksWeight_append, blocksWeight_singleton]
          omega
        · rw [if_neg hb]
          dsimp only
          rw [blocksWeight_append, blocksWeight_singleton]
          omega
      · rw [if_neg hg]
        dsimp only
        omega
    · rw [if_neg hs]
      dsimp only
      omega
  · rw [if_neg h0]
    dsimp only
    omega

theorem sheetStep_bound (cfg : Settings) (ws : Sheet) (bs : List String) (r : Int) :
    blocksWeight (sheetStep cfg (bs, r) ws).1 + max (sheetStep cfg (bs, r) ws).2 0
      ≤ blocksWeight bs + max r 0 + sheetOverhead ws := by
  simp only [sheetStep]
  by_cases h0 : r > 0
  · rw [if_pos h0]
    set tables := detectTableRegions ws.matrix cfg.maxExcelTablesPerSheet with htab
    set st1 : List String × Int :=
      (bs ++ [sheetHeaderBlock ws], r - (((sheetHeaderBlock ws).length : Int) + 1)) with hst1
    have h1 : blocksWeight st1.1 + max st1.2 0
        ≤ blocksWeight bs + max r 0 + (((sheetHeaderBlock ws).length : Int) + 2) := by
      rw [hst1]
      simp only [blocksWeight_append, blocksWeight_singleton]
      omega
    set st2 := if tables ≠ [] ∧ st1.2 > 0 then excelTablesGo (List.enumFrom 1 tables) st1
      else st1 with hst2
    have h2 : blocksWeight st2.1 + max st2.2 0
        ≤ blocksWeight st1.1 + max st1.2 0 + ((excelTableMarker.length : Int) + 2) := by
      rw [hst2]
      by_cases hc : tables ≠ [] ∧ st1.2 > 0
      · rw [if_pos hc]
        have := excelTablesGo_bound (List.enumFrom 1 tables) st1.1 st1.2
        simpa using this
      · rw [if_neg hc]
        omega
    have h3 : blocksWeight (gridStep ws.matrix tables st2.1 st2.2).1
          + max (gridStep ws.matrix tables st2.1 st2.2).2 0
        ≤ blocksWeight st2.1 + max st2.2 0 + ((excelGridMarker.length : Int) + 2) :=
      gridStep_bound ws.matrix tables st2.1 st2.2
    unfold sheetOverhead
    omega
  · rw [if_neg h0]
    show blocksWeight bs + max r 0 ≤ blocksWeight bs + max r 0 + sheetOverhead ws
    unfold sheetOverhead
    omega

theorem excelFold_bound (cfg : Settings) (sheets : List Sheet) :
    ∀ bs r, blocksWeight (sheets.foldl (sheetStep cfg) (bs, r)).1
        + max (sheets.foldl (sheetStep cfg) (bs, r)).2 0
      ≤ blocksWeight bs + max r 0 + excelOverhead sheets := by
  induction sheets with
  | nil =>
    intro bs r
    simp only [List.foldl_nil, excelOverhead, List.map_nil, List.sum_nil]
    omega
  | cons ws rest ih =>
    intro bs r
    rw [List.foldl_cons]
    rcases hst : sheetStep cfg (bs, r) ws with ⟨bs1, r1⟩
    have hstep := sheetStep_bound cfg ws bs r
    rw [hst] at hstep
    dsimp only at hstep
    have hrest := ih bs1 r1
    have hover : excelOverhead (ws :: rest) = sheetOverhead ws + excelOverhead rest := by
      simp [excelOverhead]
    rw [hover]
    omega

/-- The Excel blob is bounded by the 180000 budget plus the per-sheet
slack. -/
theorem excelExtractedText_bound (cfg : Settings) (sheets : List Sheet) :
    ((excelExtractedText cfg sheets).length : Int) ≤ 180000 + excelOverhead sheets := by
  have hfold := excelFold_bound cfg sheets [] 180000
  simp only [blocksWeight_nil] at hfold
  have h180 : max (180000 : Int) 0 = 180000 := rfl
  rw [h180] at hfold
  have hjoin := pyJoin_length_le (sheets.foldl (sheetStep cfg) ([], (180000 : Int))).1
  have hstrip :
      ((pyStrip (pyJoin ("\n\n") (sheets.foldl (sheetStep cfg) ([], (180000 : Int))).1)).length : Int)
        ≤ ((pyJoin ("\n\n") (sheets.foldl (sheetStep cfg) ([], (180000 : Int))).1).length : Int) := by
    exact_mod_cast pyStrip_length_le _
  have hmax : (0 : Int) ≤ max (sheets.foldl (sheetStep cfg) ([], (180000 : Int))).2 0 :=
    le_max_right _ _
  unfold excelExtractedText
  omega

/-! ## PDF extractor (`parsers/pdf.py`) -/

/-- Space-or-tab test for the `[ \t]+` collapse of `_clean_text`. -/
def isBlankTab (c : Char) : Bool :=
  c = ' ' || c = '\t'

/-- `re.sub(r"[ \t]+", " ", s)`: collapse every run of spaces and tabs to one
space.  Fuel starts at the list length; every step consumes the head. -/
def collapseBlanksGo : Nat → List Char → List Char
  | 0, l => l
  | _, [] => []
  | fuel + 1, c :: rest =>
    if isBlankTab c then ' ' :: collapseBlanksGo fuel (rest.dropWhile isBlankTab)
    else c :: collapseBlanksGo fuel rest

/-- `re.sub(r"\n{3,}", "\n\n", s)`: runs of three or more newlines become
exactly two. -/
def collapseNewlinesGo : Nat → List Char → List Char
  | 0, l => l
  | _, [] => []
  | fuel + 1, c :: rest =>
    if c = '\n' then
      let run := 1 + (rest.takeWhile (fun d => d = '\n')).length
      List.replicate (if run ≥ 3 then 2 else run) '\n'
        ++ collapseNewlinesGo fuel (rest.dropWhile (fun d => d = '\n'))
    else c :: collapseNewlinesGo fuel rest

/-- `_clean_text`: NUL bytes become spaces, blank runs collapse, newline runs
of three or more collapse to two, then strip. -/
def pyCleanText (s : String) : String :=
  let l := (pyReplace s ("\x00") (" ")).toList
  pyStrip (String.mk (collapseNewlinesGo l.length (collapseBlanksGo l.length l)))

/-- Marker appended when the PDF text blob exceeds its budget. -/
def pdfTruncMarker : String := "...[TRUNCATED: pdf extracted_text exceeded budget]..."

/-- `add_block` of `_build_pdf_extracted_text`: appends the stripped block
while it fits (consuming `len + 2`), appends the marker once and zeroes the
budget when it does not, and is a no-op once the budget is exhausted. -/
def addBlock (bs : List String) (r : Int) (s : String) : List String × Int :=
  if r ≤ 0 then (bs, r)
  else
    let s2 := pyStrip s
    if s2 = "" then (bs, r)
    else if (s2.length : Int) + 2 > r then (bs ++ [pdfTruncMarker], 0)
    else (bs ++ [s2], r - ((s2.length : Int) + 2))

/-- The non-scanned page loop of `_build_pdf_extracted_text`: pages are
indexed `0 ≤ i < n_pages` directly into `page_texts`, which raises
`IndexError` when the list is shorter than `n_pages` (this is reachable: the
DocAI replacement and the failure note can shrink `page_texts`).  Empty pages
`continue` without the break check; after a block is added the loop breaks
when the budget is exhausted.  Fuel counts the remaining iterations. -/
def pdfPagesGo (pts : List String) : Nat → Nat → List String × Int →
    Except String (List String × Int)
  | 0, _, st => .ok st
  | fuel + 1, i, st =>
    match pts.get? i with
    | none => .error "IndexError: list index out of range"
    | some t =>
      let txt := pyStrip t
      if txt = "" then pdfPagesGo pts fuel (i + 1) st
      else
        let st2 := addBlock st.1 st.2 ("### PAGE " ++ toString (i + 1) ++ " [TEXT]\n" ++ pyTake txt 2200)
        if st2.2 ≤ 0 then .ok st2
        else pdfPagesGo pts fuel (i + 1) st2

/-- Last-wins association lookup, modelling a Python dict built by repeated
assignment. -/
def lookupLast (m : List (Int × String)) (p : Int) : Option String :=
  (m.reverse.find? (fun q => q.1 = p)).map (fun q => q.2)

/-- The scanned-mode page loop of `_build_pdf_extracted_text`: for each page
`1 ≤ p ≤ n_pages`, emit the OCR and vision chunks when present (1800-char
caps), skipping pages with neither; breaks once the budget is exhausted. -/
def pdfScannedGo (ocrMap visMap : List (Int × String)) :
    Nat → Int → List String × Int → List String × Int
  | 0, _, st => st
  | fuel + 1, p, st =>
    let ocr := pyStrip ((lookupLast ocrMap p).getD "")
    let vis := pyStrip ((lookupLast visMap p).getD "")
    if ocr = "" ∧ vis = "" then pdfScannedGo ocrMap visMap fuel (p + 1) st
    else
      let pageLines :=
        ["### PAGE " ++ toString p ++ " [OCR+VISION]"]
          ++ (if ocr ≠ "" then ["OCR:", pyTake ocr 1800] else [])
          ++ (if vis ≠ "" then ["VISION:", pyTake vis 1800] else [])
      let st2 := addBlock st.1 st.2 (pyJoin ("\n") pageLines)
      if st2.2 ≤ 0 then st2
      else pdfScannedGo ocrMap visMap fuel (p + 1) st2

/-- `_build_pdf_extracted_text` (budget `MAX_PDF_TEXT_CHARS = 140_000`): the
summary header is always placed first and debited unconditionally; then
either the per-page selectable-text loop (which can raise `IndexError`) or
the OCR+vision loop, and the blocks are joined and stripped. -/
def buildPdfExtractedText (nPages : Int) (pageTexts : List String)
    (ocrSamples visSamples : List (Int × String)) (scannedLike : Bool) :
    Except String String :=
  let header := "## PDF SUMMARY: pages=" ++ toString nPages ++ " mode="
    ++ (if scannedLike then "scanned" else "text")
  let st0 : List String × Int := ([header], 140000 - ((header.length : Int) + 2))
  if !scannedLike then
    match pdfPagesGo pageTexts nPages.toNat 0 st0 with
    | .error e => .error e
    | .ok st => .ok (pyStrip (pyJoin ("\n\n") st.1))
  else
    let ocrMap := ocrSamples.map (fun q => (q.1, pyStrip q.2))
    let visMap := visSamples.map (fun q => (q.1, pyStrip q.2))
    .ok (pyStrip (pyJoin ("\n\n") (pdfScannedGo ocrMap visMap nPages.toNat 1 st0).1))

/-- Page count after the `max_pdf_pages` cap. -/
def cappedPages (cfg : Settings) (rawPages : List String) : Int :=
  min ((rawPages.length : Nat) : Int) cfg.maxPdfPages

/-- The cleaned selectable text of the loaded pages. -/
def pdfSelectableTexts (cfg : Settings) (rawPages : List String) : List String :=
  (rawPages.take (cappedPages cfg rawPages).toNat).map pyCleanText

/-- Total selectable-text char count over the loaded pages. -/
def pdfTotalTextChars (cfg : Settings) (rawPages : List String) : Nat :=
  ((pdfSelectableTexts cfg rawPages).map String.length).sum

/-- The scanned-like classification of `analyze_pdf_bytes`:
`avg_text = total_text_chars / max(1, n_pages)` compared strictly against
the threshold.  The division is exact here, so `total / d < thr` equals the
integer cross-multiplication `total < thr * d`, which is the executable form
used; the equivalence with the rational-division reading is proved in the
claim C6 theorem. -/
def pdfScannedInitial (cfg : Settings) (rawPages : List String) : Bool :=
  decide ((pdfTotalTextChars cfg rawPages : Int)
    < cfg.minPdfTextCharsPerPage * max 1 (cappedPages cfg rawPages))

/-- `_docai_enabled`. -/
def docaiEnabled (cfg : Settings) : Bool :=
  cfg.enableDocaiOcr
    && pyStrip cfg.docaiProjectId ≠ ""
    && pyStrip cfg.docaiLocation ≠ ""
    && pyStrip cfg.docaiProcessorId ≠ ""
    && (pyStrip cfg.docaiSaJsonB64 ≠ "" || pyStrip cfg.googleSaJsonB64 ≠ "")

/-- One iteration of the DocAI retry loop: state is
`(page_texts, scanned_like, docai_used, docai_error)`; after a successful
attempt (`docai_used`) the loop has broken and later attempts are skipped.
A successful call with a non-empty page list replaces the page texts
(`docai_pages[:n_pages]` when more than one element) and clears the
scanned flag; an empty result leaves the state untouched; an exception
records the error description. -/
def docaiAttempt (n : Nat) (res : Except String (List String))
    (st : List String × Bool × Bool × String) : List String × Bool × Bool × String :=
  if st.2.2.1 then st
  else
    match res with
    | .ok ps =>
      if ps ≠ [] then ((if ps.length > 1 then ps.take n else ps), false, true, st.2.2.2)
      else st
    | .error e => (st.1, st.2.1, false, e)

/-- The note substituted as the sole page text when the document is
scanned-like but DocAI did not produce text. -/
def docaiFailureNote (err : String) : String :=
  "DocAI OCR failed (or not configured) for scanned PDF. No text extracted."
    ++ (if err ≠ "" then " Last error: " ++ err else "")

/-- The observable outcome of `analyze_pdf_bytes`. -/
structure PdfOutcome where
  nPages : Int
  finalPageTexts : List String
  scannedInitial : Bool
  scannedAtBuild : Bool
  docaiUsed : Bool
  docaiError : String
  mode : String
  extractedText : Except String String

/-- `analyze_pdf_bytes` with the fitz page texts given as `rawPages` and the
two possible `_docai_ocr_pdf` calls abstracted as `docai attempt`.  The flag
passed to `_build_pdf_extracted_text` is `scannedAtBuild`; the finding
reports `mode` and `extractedText` (a raising build surfaces as the analysis
exception caught by `analyze_attachments`). -/
def pdfPipeline (cfg : Settings) (rawPages : List String)
    (docai : Nat → Except String (List String)) : PdfOutcome :=
  let nPagesI := cappedPages cfg rawPages
  let n := nPagesI.toNat
  let pageTexts0 := pdfSelectableTexts cfg rawPages
  let scanned0 := pdfScannedInitial cfg rawPages
  let st1 :=
    if scanned0 && docaiEnabled cfg then
      docaiAttempt n (docai 1) (pageTexts0, scanned0, false, "")
    else (pageTexts0, scanned0, false, "")
  let st2 :=
    if scanned0 && docaiEnabled cfg then docaiAttempt n (docai 2) st1
    else st1
  let pts2 := st2.1
  let scanned2 := st2.2.1
  let used2 := st2.2.2.1
  let err2 := st2.2.2.2
  let pts3 := if scanned2 && !used2 then [docaiFailureNote err2] else pts2
  let scanned3 := if scanned2 && !used2 then false else scanned2
  { nPages := nPagesI
    finalPageTexts := pts3
    scannedInitial := scanned0
    scannedAtBuild := scanned3
    docaiUsed := used2
    docaiError := err2
    mode := if used2 then "text+docai" else "text"
    extractedText := buildPdfExtractedText nPagesI pts3 [] [] scanned3 }

/-! ## PDF budget accounting -/

theorem addBlock_bound (bs : List String) (r : Int) (s : String) :
    blocksWeight (addBlock bs r s).1 + max (addBlock bs r s).2 0
      ≤ blocksWeight bs + max r 0 + ((pdfTruncMarker.length : Int) + 2) := by
  unfold addBlock
  by_cases h0 : r ≤ 0
  · rw [if_pos h0]
    dsimp only
    omega
  · rw [if_neg h0]
    by_cases he : pyStrip s = ""
    · rw [if_pos he]
      dsimp only
      omega
    · rw [if_neg he]
      by_cases hb : ((pyStrip s).length : Int) + 2 > r
      · rw [if_pos hb]
        dsimp only
        rw [blocksWeight_append, blocksWeight_singleton]
        omega
      · rw [if_neg hb]
        dsimp only
        rw [blocksWeight_append, blocksWeight_singleton]
        omega

theorem addBlock_conserve (bs : List String) (r : Int) (s : String)
    (h : 0 < (addBlock bs r s).2) :
    blocksWeight (addBlock bs r s).1 + max (addBlock bs r s).2 0
      ≤ blocksWeight bs + max r 0 := by
  unfold addBlock at h ⊢
  by_cases h0 : r ≤ 0
  · rw [if_pos h0]
  · rw [if_neg h0]
    rw [if_neg h0] at h
    by_cases he : pyStrip s = ""
    · rw [if_pos he]
    · rw [if_neg he] at h ⊢
      by_cases hb : ((pyStrip s).length : Int) + 2 > r
      · rw [if_pos hb] at h
        dsimp only at h
        omega
      · rw [if_neg hb]
        dsimp only
        rw [blocksWeight_append, blocksWeight_singleton]
        omega

theorem addBlock_ne_nil (bs : List String) (r : Int) (s : String) (h : bs ≠ []) :
    (addBlock bs r s).1 ≠ [] := by
  unfold addBlock
  by_cases h0 : r ≤ 0
  · rw [if_pos h0]
    exact h
  · rw [if_neg h0]
    by_cases he : pyStrip s = ""
    · rw [if_pos he]
      exact h
    · rw [if_neg he]
      by_cases hb : ((pyStrip s).length : Int) + 2 > r
      · rw [if_pos hb]
        simp
      · rw [if_neg hb]
        simp

theorem pdfPagesGo_bound (pts : List String) :
    ∀ (fuel i : Nat) (st out : List String × Int),
      pdfPagesGo pts fuel i st = .ok out →
      blocksWeight out.1 + max out.2 0
        ≤ blocksWeight st.1 + max st.2 0 + ((pdfTruncMarker.length : Int) + 2) := by
  intro fuel
  induction fuel with
  | zero =>
    intro i st out h
    simp only [pdfPagesGo, Except.ok.injEq] at h
    subst h
    omega
  | succ fuel ih =>
    intro i st out h
    simp only [pdfPagesGo] at h
    cases hget : pts.get? i with
    | none =>
      rw [hget] at h
      dsimp only at h
      cases h
    | some t =>
      rw [hget] at h
      dsimp only at h
      by_cases he : pyStrip t = ""
      · rw [if_pos he] at h
        exact ih (i + 1) st out h
      · rw [if_neg he] at h
        by_cases hb : (addBlock st.1 st.2
            ("### PAGE " ++ toString (i + 1) ++ " [TEXT]\n" ++ pyTake (pyStrip t) 2200)).2 ≤ 0
        · rw [if_pos hb] at h
          simp only [Except.ok.injEq] at h
          subst h
          exact addBlock_bound st.1 st.2 _
        · rw [if_neg hb] at h
          have h1 := ih (i + 1) _ out h
          have h2 := addBlock_conserve st.1 st.2
            ("### PAGE " ++ toString (i + 1) ++ " [TEXT]\n" ++ pyTake (pyStrip t) 2200)
            (by omega)
          omega

theorem pdfPagesGo_ne_nil (pts : List String) :
    ∀ (fuel i : Nat) (st out : List String × Int),
      st.1 ≠ [] → pdfPagesGo pts fuel i st = .ok out → out.1 ≠ [] := by
  intro fuel
  induction fuel with
  | zero =>
    intro i st out hne h
    simp only [pdfPagesGo, Except.ok.injEq] at h
    subst h
    exact hne
  | succ fuel ih =>
    intro i st out hne h
    simp only [pdfPagesGo] at h
    cases hget : pts.get? i with
    | none =>
      rw [hget] at h
      dsimp only at h
      cases h
    | some t =>
      rw [hget] at h
      dsimp only at h
      by_cases he : pyStrip t = ""
      · rw [if_pos he] at h
        exact ih (i + 1) st out hne h
      · rw [if_neg he] at h
        by_cases hb : (addBlock st.1 st.2
            ("### PAGE " ++ toString (i + 1) ++ " [TEXT]\n" ++ pyTake (pyStrip t) 2200)).2 ≤ 0
        · rw [if_pos hb] at h
          simp only [Except.ok.injEq] at h
          subst h
          exact addBlock_ne_nil st.1 st.2 _ hne
        · rw [if_neg hb] at h
          exact ih (i + 1) _ out (addBlock_ne_nil st.1 st.2 _ hne) h

/-- Bound for the non-scanned build: whenever `_build_pdf_extracted_text`
returns (rather than raising `IndexError`), its result respects the 140000
budget plus one truncation marker, provided the page-count header is not
itself astronomically long. -/
theorem buildPdf_text_bound (nPages : Int) (pts : List String) (s : String)
    (hh : (toString nPages).length ≤ 30)
    (hok : buildPdfExtractedText nPages pts [] [] false = .ok s) :
    (s.length : Int) ≤ 140000 + (pdfTruncMarker.length : Int) := by
  have hshape : buildPdfExtractedText nPages pts [] [] false
      = (match pdfPagesGo pts nPages.toNat 0
            (["## PDF SUMMARY: pages=" ++ toString nPages ++ " mode=" ++ "text"],
              140000 - ((("## PDF SUMMARY: pages=" ++ toString nPages ++ " mode="
                ++ "text").length : Int) + 2)) with
          | .error e => .error e
          | .ok st => .ok (pyStrip (pyJoin ("\n\n") st.1))) := rfl
  rw [hshape] at hok
  set header := "## PDF SUMMARY: pages=" ++ toString nPages ++ " mode=" ++ "text" with hhdr
  have hhl : (header.length : Int) ≤ 62 := by
    rw [hhdr]
    rw [String.length_append, String.length_append, String.length_append]
    have h1 : ("## PDF SUMMARY: pages=" : String).length = 22 := rfl
    have h2 : (" mode=" : String).length = 6 := rfl
    have h3 : ("text" : String).length = 4 := rfl
    omega
  cases hrun : pdfPagesGo pts nPages.toNat 0 ([header], 140000 - ((header.length : Int) + 2)) with
  | error e =>
    rw [hrun] at hok
    cases hok
  | ok st =>
    rw [hrun] at hok
    simp only [Except.ok.injEq] at hok
    subst hok
    have hbound := pdfPagesGo_bound pts nPages.toNat 0 _ st hrun
    have hne := pdfPagesGo_ne_nil pts nPages.toNat 0 _ st (by simp) hrun
    have hjoin := pyJoin_length_le_of_ne_nil st.1 hne
    have hstrip : ((pyStrip (pyJoin ("\n\n") st.1)).length : Int)
        ≤ ((pyJoin ("\n\n") st.1).length : Int) := by
      exact_mod_cast pyStrip_length_le _
    have hw1 : blocksWeight [header] = (header.length : Int) + 2 := blocksWeight_singleton _
    rw [hw1] at hbound
    have hr0 : max (140000 - ((header.length : Int) + 2)) 0
        = 140000 - ((header.length : Int) + 2) := by
      omega
    rw [hr0] at hbound
    have hmax : (0 : Int) ≤ max st.2 0 := le_max_right _ _
    omega

/-! ## Scanned-flag and mode facts (`analyze_pdf_bytes`) -/

theorem docaiAttempt_inv (n : Nat) (res : Except String (List String))
    (st : List String × Bool × Bool × String) (h : st.2.2.1 = true → st.2.1 = false) :
    (docaiAttempt n res st).2.2.1 = true → (docaiAttempt n res st).2.1 = false := by
  unfold docaiAttempt
  by_cases hu : st.2.2.1 = true
  · rw [if_pos hu]
    exact h
  · rw [if_neg hu]
    cases res with
    | ok ps =>
      dsimp only
      by_cases hps : ps ≠ []
      · rw [if_pos hps]
        intro _
        rfl
      · rw [if_neg hps]
        exact h
    | error e =>
      dsimp only
      intro hfalse
      cases hfalse

theorem pdfPipeline_scanned_false (cfg : Settings) (rawPages : List String)
    (docai : Nat → Except String (List String)) :
    (pdfPipeline cfg rawPages docai).scannedAtBuild = false := by
  have key : ∀ (st : List String × Bool × Bool × String),
      (st.2.2.1 = true → st.2.1 = false) →
      (if st.2.1 && !st.2.2.1 then false else st.2.1) = false := by
    intro st hinv
    by_cases hs : st.2.1 = true
    · have hu : st.2.2.1 = false := by
        cases hcase : st.2.2.1 with
        | false => rfl
        | true => rw [hinv hcase] at hs; cases hs
      simp [hs, hu]
    · simp only [Bool.not_eq_true] at hs
      simp [hs]
  by_cases hg : (pdfScannedInitial cfg rawPages && docaiEnabled cfg) = true
  · simp only [pdfPipeline, hg, if_true]
    refine key _ (docaiAttempt_inv _ _ _ (docaiAttempt_inv _ _ _ ?_))
    intro hfalse
    cases hfalse
  · simp only [pdfPipeline, hg, if_false]
    cases hsc : pdfScannedInitial cfg rawPages <;> simp [hsc]

theorem pdfPipeline_mode (cfg : Settings) (rawPages : List String)
    (docai : Nat → Except String (List String)) :
    (pdfPipeline cfg rawPages docai).mode = "text"
      ∨ (pdfPipeline cfg rawPages docai).mode = "text+docai" := by
  have key : ∀ b : Bool, (if b then "text+docai" else "text") = "text"
      ∨ (if b then "text+docai" else "text") = "text+docai" := by
    intro b
    cases b <;> simp
  simp only [pdfPipeline]
  exact key _

theorem pdfPipeline_extracted_eq (cfg : Settings) (rawPages : List String)
    (docai : Nat → Except String (List String)) :
    (pdfPipeline cfg rawPages docai).extractedText
      = buildPdfExtractedText (cappedPages cfg rawPages)
          (pdfPipeline cfg rawPages docai).finalPageTexts [] [] false := by
  rw [← pdfPipeline_scanned_false cfg rawPages docai]
  rfl

/-- Claim C10.  `analyze_pdf_bytes` always hands `scanned_like = False` to
`_build_pdf_extracted_text` — after docai success the flag is cleared, and
after docai failure or non-configuration the failure note is substituted and
the flag is cleared — so the OCR+vision assembly branch is unreachable from
it, and the finding data reports mode `"text"` or `"text+docai"`, never a
scanned mode. -/
theorem c10_theorem (cfg : Settings) (rawPages : List String)
    (docai : Nat → Except String (List String)) :
    (pdfPipeline cfg rawPages docai).scannedAtBuild = false ∧
    ((pdfPipeline cfg rawPages docai).mode = "text"
      ∨ (pdfPipeline cfg rawPages docai).mode = "text+docai") ∧
    (pdfPipeline cfg rawPages docai).extractedText
      = buildPdfExtractedText (cappedPages cfg rawPages)
          (pdfPipeline cfg rawPages docai).finalPageTexts [] [] false :=
  ⟨pdfPipeline_scanned_false cfg rawPages docai,
   pdfPipeline_mode cfg rawPages docai,
   pdfPipeline_extracted_eq cfg rawPages docai⟩

/-- Claim C6.  The document is classified scanned-like exactly when the
average selectable-text char count per capped page — the rational
`total / max(1, n_pages)` — is strictly below the configured threshold; a
document whose average equals the threshold is not scanned-like. -/
theorem c6_theorem (cfg : Settings) (rawPages : List String)
    (docai : Nat → Except String (List String)) :
    ((pdfPipeline cfg rawPages docai).scannedInitial = true ↔
      (((pdfTotalTextChars cfg rawPages : Nat) : ℚ)
          / ((max 1 (cappedPages cfg rawPages) : Int) : ℚ)
        < ((cfg.minPdfTextCharsPerPage : Int) : ℚ))) ∧
    (((pdfTotalTextChars cfg rawPages : Nat) : ℚ)
          / ((max 1 (cappedPages cfg rawPages) : Int) : ℚ)
        = ((cfg.minPdfTextCharsPerPage : Int) : ℚ) →
      (pdfPipeline cfg rawPages docai).scannedInitial = false) := by
  have hscan : (pdfPipeline cfg rawPages docai).scannedInitial
      = pdfScannedInitial cfg rawPages := rfl
  have hden : (0 : ℚ) < ((max 1 (cappedPages cfg rawPages) : Int) : ℚ) := by
    have h1 : (1 : Int) ≤ max 1 (cappedPages cfg rawPages) := le_max_left _ _
    exact_mod_cast lt_of_lt_of_le Int.zero_lt_one h1
  have hiff : pdfScannedInitial cfg rawPages = true ↔
      (((pdfTotalTextChars cfg rawPages : Nat) : ℚ)
          / ((max 1 (cappedPages cfg rawPages) : Int) : ℚ)
        < ((cfg.minPdfTextCharsPerPage : Int) : ℚ)) := by
    unfold pdfScannedInitial
    rw [decide_eq_true_eq]
    rw [div_lt_iff₀ hden]
    constructor
    · intro h
      exact_mod_cast h
    · intro h
      exact_mod_cast h
  constructor
  · rw [hscan]
    exact hiff
  · intro heq
    rw [hscan]
    rw [Bool.eq_false_iff]
    intro htrue
    have hlt := (div_lt_iff₀ hden).mp (hiff.mp htrue)
    rw [div_eq_iff (ne_of_gt hden)] at heq
    rw [heq] at hlt
    exact lt_irrefl _ hlt

/-- A single page whose cleaned selectable text has exactly 40 chars. -/
def pageForty : String := "Shaft-Drawing-Q235-steel-plated-40charss"

theorem c6_witness :
    (((pdfTotalTextChars {} [pageForty] : Nat) : ℚ)
        / ((max 1 (cappedPages {} [pageForty]) : Int) : ℚ)
      = ((({} : Settings).minPdfTextCharsPerPage : Int) : ℚ)) ∧
    (pdfPipeline {} [pageForty] (fun _ => .error "boom")).scannedInitial = false := by
  have htot : pdfTotalTextChars {} [pageForty] = 40 := by decide
  have hcap : cappedPages {} [pageForty] = 1 := by decide
  have havg : (((pdfTotalTextChars {} [pageForty] : Nat) : ℚ)
        / ((max 1 (cappedPages {} [pageForty]) : Int) : ℚ)
      = ((({} : Settings).minPdfTextCharsPerPage : Int) : ℚ)) := by
    rw [htot, hcap]
    norm_num
  exact ⟨havg, (c6_theorem {} [pageForty] (fun _ => .error "boom")).2 havg⟩

/-- The image blob never exceeds its 25000 budget at all: the truncated form
is `25000 - 80` chars plus a 19-char marker. -/
theorem imageExtractedText_le (url vision : String) :
    (imageExtractedText url vision).length ≤ 25000 := by
  unfold imageExtractedText
  dsimp only
  set e := pyStrip (pyJoin ("\n\n")
    ["## IMAGE: " ++ url,
     if pyStrip vision ≠ "" then "VISION:\n" ++ pyStrip vision
     else "VISION:\n(no vision output)"]) with he
  by_cases h : e.length > 25000
  · rw [if_pos h, String.length_append]
    have h1 := pyTake_length_le e (25000 - 80)
    have h2 : imageTruncMarker.length = 19 := rfl
    omega
  · rw [if_neg h]
    omega

/-- Claim C2 (amended).  The PDF blob (whenever the build returns) respects
its 140000 budget plus one truncation marker, and the image blob respects its
25000 budget outright; the spreadsheet blob does NOT respect
`180000 + marker`: its guarantee is the budget plus a per-sheet overhead of
the sheet-header length plus the marker lengths (the sheet header is debited
one char short of its real join cost and may overshoot the remaining
budget). -/
theorem c2_amended :
    (∀ (cfg : Settings) (rawPages : List String)
        (docai : Nat → Except String (List String)) (s : String),
      (toString (cappedPages cfg rawPages)).length ≤ 30 →
      (pdfPipeline cfg rawPages docai).extractedText = .ok s →
      (s.length : Int) ≤ 140000 + (pdfTruncMarker.length : Int)) ∧
    (∀ (cfg : Settings) (sheets : List Sheet),
      ((excelExtractedText cfg sheets).length : Int) ≤ 180000 + excelOverhead sheets) ∧
    (∀ (url vision : String), (imageExtractedText url vision).length ≤ 25000) := by
  refine ⟨?_, excelExtractedText_bound, imageExtractedText_le⟩
  intro cfg rawPages docai s hh hok
  rw [pdfPipeline_extracted_eq cfg rawPages docai] at hok
  exact buildPdf_text_bound (cappedPages cfg rawPages)
    (pdfPipeline cfg rawPages docai).finalPageTexts s hh hok

theorem c2_amended_witness :
    (toString (cappedPages {} [])).length ≤ 30 ∧
    (pdfPipeline {} [] (fun _ => .error "boom")).extractedText
      = .ok ("## PDF SUMMARY: pages=0 mode=text") ∧
    ((("## PDF SUMMARY: pages=0 mode=text" : String)).length : Int)
      ≤ 140000 + (pdfTruncMarker.length : Int) :=
  ⟨by decide, by rfl,
   c2_amended.1 {} [] (fun _ => .error "boom") ("## PDF SUMMARY: pages=0 mode=text")
     (by decide) (by rfl)⟩

/-! ## Excel budget violation (claim C2 counterexample)

A workbook of 3750 sheets, each with a 31-char title and no cells, produces
only sheet-header blocks.  Each header is 47 chars but is debited 48 from the
180000 budget, so all 3750 headers are appended; joined with `"\n\n"` the
blob has `3750*47 + 2*3749 = 183748` chars, exceeding the budget plus any
truncation marker. -/

/-- A 31-char sheet title. -/
def title31 : String := "BOM-Mechanical-Parts-List-Rev-A"

/-- An empty sheet with a 31-char title. -/
def sheet31 : Sheet := { title := title31, matrix := [] }

theorem gridStep_empty (bs : List String) (r : Int) :
    gridStep ([] : List (List String)) [] bs r = (bs, r) := by
  unfold gridStep
  by_cases h : r > 0
  · rw [if_pos h]
    have hsum : ((List.map (fun t => t.rowsSample.length) ([] : List TableRegion)).sum) = 0 := rfl
    rw [hsum]
    rw [if_pos (by omega : (0 : Nat) < 20)]
    have hg : rowsToTsv ([] : List (List String)) (min r 70000) = "" := rfl
    rw [hg]
    simp
  · rw [if_neg h]

theorem sheetStep_empty (bs : List String) (r : Int) (h : r > 0) :
    sheetStep {} (bs, r) sheet31 = (bs ++ [sheetHeaderBlock sheet31], r - 48) := by
  have htab : detectTableRegions sheet31.matrix ({} : Settings).maxExcelTablesPerSheet
      = [] := rfl
  have hlen : ((sheetHeaderBlock sheet31).length : Int) + 1 = 48 := by decide
  simp only [sheetStep, htab]
  rw [if_pos h]
  rw [if_neg (by simp : ¬(([] : List TableRegion) ≠ [] ∧ r - (((sheetHeaderBlock sheet31).length : Int) + 1) > 0))]
  rw [show sheet31.matrix = ([] : List (List String)) from rfl]
  rw [gridStep_empty]
  dsimp only
  rw [hlen]

theorem foldl_sheet31 (k : Nat) :
    ∀ bs : List String,
      List.foldl (sheetStep {}) (bs, 48 * (k : Int)) (List.replicate k sheet31)
        = (bs ++ List.replicate k (sheetHeaderBlock sheet31), 0) := by
  induction k with
  | zero =>
    intro bs
    simp
  | succ k ih =>
    intro bs
    rw [List.replicate_succ, List.foldl_cons]
    have hpos : 48 * ((k + 1 : Nat) : Int) > 0 := by
      push_cast
      omega
    rw [sheetStep_empty bs _ hpos]
    have harith : 48 * ((k + 1 : Nat) : Int) - 48 = 48 * (k : Int) := by
      push_cast
      ring
    rw [harith, ih (bs ++ [sheetHeaderBlock sheet31])]
    rw [List.append_assoc, List.singleton_append, ← List.replicate_succ]

theorem join_replicate_hdr_len (k : Nat) :
    (pyJoin ("\n\n") (List.replicate (k + 1) (sheetHeaderBlock sheet31))).length
      = 47 + k * 49 := by
  induction k with
  | zero =>
    decide
  | succ k ih =>
    rw [List.replicate_succ]
    rw [show List.replicate (k + 1) (sheetHeaderBlock sheet31)
        = sheetHeaderBlock sheet31 :: List.replicate k (sheetHeaderBlock sheet31)
      from List.replicate_succ .. ]
    rw [show pyJoin ("\n\n") (sheetHeaderBlock sheet31
          :: sheetHeaderBlock sheet31 :: List.replicate k (sheetHeaderBlock sheet31))
        = sheetHeaderBlock sheet31 ++ ("\n\n")
            ++ pyJoin ("\n\n") (sheetHeaderBlock sheet31
                :: List.replicate k (sheetHeaderBlock sheet31)) from rfl]
    rw [String.length_append, String.length_append]
    rw [← List.replicate_succ, ih]
    have h47 : (sheetHeaderBlock sheet31).length = 47 := by decide
    have h2 : ("\n\n" : String).length = 2 := rfl
    rw [h47, h2]
    ring

theorem join_replicate_hdr_head (k : Nat) :
    ∃ t, (pyJoin ("\n\n") (List.replicate (k + 1) (sheetHeaderBlock sheet31))).toList
      = '#' :: t := by
  cases k with
  | zero =>
    exact ⟨(sheetHeaderBlock sheet31).toList.tail, by decide⟩
  | succ k =>
    rw [show List.replicate (k + 1 + 1) (sheetHeaderBlock sheet31)
        = sheetHeaderBlock sheet31 :: List.replicate (k + 1) (sheetHeaderBlock sheet31)
      from List.replicate_succ .. ]
    rw [show List.replicate (k + 1) (sheetHeaderBlock sheet31)
        = sheetHeaderBlock sheet31 :: List.replicate k (sheetHeaderBlock sheet31)
      from List.replicate_succ .. ]
    refine ⟨(sheetHeaderBlock sheet31).toList.tail
      ++ (("\n\n") ++ pyJoin ("\n\n") (sheetHeaderBlock sheet31
            :: List.replicate k (sheetHeaderBlock sheet31))).toList, ?_⟩
    rw [show pyJoin ("\n\n") (sheetHeaderBlock sheet31 :: sheetHeaderBlock sheet31
            :: List.replicate k (sheetHeaderBlock sheet31))
        = sheetHeaderBlock sheet31 ++ (("\n\n") ++ pyJoin ("\n\n") (sheetHeaderBlock sheet31
            :: List.replicate k (sheetHeaderBlock sheet31))) from by
      rw [← String.append_assoc]; rfl]
    rw [toList_append]
    rw [show (sheetHeaderBlock sheet31).toList
        = '#' :: (sheetHeaderBlock sheet31).toList.tail from by decide]
    rfl

theorem join_replicate_hdr_last (k : Nat) :
    ∃ t, (pyJoin ("\n\n") (List.replicate (k + 1) (sheetHeaderBlock sheet31))).toList.reverse
      = 'A' :: t := by
  induction k with
  | zero =>
    exact ⟨(sheetHeaderBlock sheet31).toList.reverse.tail, by decide⟩
  | succ k ih =>
    obtain ⟨t, ht⟩ := ih
    rw [show List.replicate (k + 1 + 1) (sheetHeaderBlock sheet31)
        = sheetHeaderBlock sheet31 :: List.replicate (k + 1) (sheetHeaderBlock sheet31)
      from List.replicate_succ .. ]
    rw [show List.replicate (k + 1) (sheetHeaderBlock sheet31)
        = sheetHeaderBlock sheet31 :: List.replicate k (sheetHeaderBlock sheet31)
      from List.replicate_succ .. ] at ht ⊢
    rw [show pyJoin ("\n\n") (sheetHeaderBlock sheet31 :: sheetHeaderBlock sheet31
            :: List.replicate k (sheetHeaderBlock sheet31))
        = (sheetHeaderBlock sheet31 ++ ("\n\n")) ++ pyJoin ("\n\n") (sheetHeaderBlock sheet31
            :: List.replicate k (sheetHeaderBlock sheet31)) from rfl]
    rw [toList_append, List.reverse_append, ht]
    exact ⟨t ++ (sheetHeaderBlock sheet31 ++ ("\n\n")).toList.reverse, rfl⟩

theorem dropWhile_cons_head (p : Char → Bool) (c : Char) (t : List Char)
    (h : p c = false) : (c :: t).dropWhile p = c :: t := by
  rw [List.dropWhile_cons, h]
  simp

theorem pyStrip_join_replicate (k : Nat) :
    pyStrip (pyJoin ("\n\n") (List.replicate (k + 1) (sheetHeaderBlock sheet31)))
      = pyJoin ("\n\n") (List.replicate (k + 1) (sheetHeaderBlock sheet31)) := by
  obtain ⟨t1, h1⟩ := join_replicate_hdr_head k
  obtain ⟨t2, h2⟩ := join_replicate_hdr_last k
  unfold pyStrip pyStripChars
  rw [h1, dropWhile_cons_head pyIsSpace '#' t1 (by decide), ← h1]
  rw [h2, dropWhile_cons_head pyIsSpace 'A' t2 (by decide), ← h2]
  rw [List.reverse_reverse]
  rfl

/-- Claim C2 as stated is false for the spreadsheet extractor: a 3750-sheet
workbook with 31-char sheet titles and no cell content yields an
`extracted_text` of 183748 chars — 3748 over the 180000 budget, far more
than any truncation marker could account for (and indeed no marker is even
appended). -/
theorem c2_counterexample :
    (excelExtractedText {} (List.replicate 3750 sheet31)).length = 183748 ∧
    180000 + excelTableMarker.length < 183748 ∧
    180000 + excelGridMarker.length < 183748 ∧
    180000 + tsvTruncMarker.length < 183748 := by
  refine ⟨?_, by decide, by decide, by decide⟩
  unfold excelExtractedText
  rw [show (180000 : Int) = 48 * ((3750 : Nat) : Int) from by norm_num]
  rw [foldl_sheet31 3750 []]
  rw [List.nil_append]
  rw [show (3750 : Nat) = 3749 + 1 from rfl]
  rw [pyStrip_join_replicate 3749]
  rw [join_replicate_hdr_len 3749]

end RFQ
